import Mathlib

/-!
Verification development for the i2yt Instagram-reel collection pipeline.

Shallow embedding of the duplicate-aware intake pipeline, the parallel task
runner, the rate limiter, the retry decorator and the date heuristics, as
implemented in `src/instagram_scraper.py`, `src/google_sheets_manager.py`,
`src/main_processor.py` and `src/parallel_processor.py`.

Conventions used throughout:
* Python strings are Lean `String`s, processed as `List Char`.
* Python sets are modelled as duplicate-free-by-use `List String`s with
  membership written `x ∈ l`.
* Wall-clock values (`time.time()`, `random.uniform` jitter, backoff delays)
  are rationals passed in as parameters.
* Fallible calls are `Option`-valued; a raised-and-caught exception is `none`.
-/

namespace I2yt

/-! ## Character and substring helpers (Python `in`, `str.lower`, `str.strip`) -/

/-- Does the pattern `p` occur as a prefix of `h`?  (Helper for substring
search; mirrors how Python's `re` and `in` scan a string.) -/
def startsWithChars : List Char → List Char → Bool
  | [], _ => true
  | _ :: _, [] => false
  | p :: ps, h :: hs => p == h && startsWithChars ps hs

/-- Python's `needle in haystack` on strings: `needle` occurs as a contiguous
substring of `haystack`. -/
def containsSub (needle : List Char) : List Char → Bool
  | [] => needle.isEmpty
  | c :: t => startsWithChars needle (c :: t) || containsSub needle t

/-- Python `'unknown_' in reel_id`: the sentinel marker that
`instagram_scraper.py` attaches to identifiers it could not parse. -/
def hasUnknownMark (s : String) : Bool :=
  containsSub "unknown_".data s.data

/-- Python `str.lower()` (ASCII case folding suffices for the texts involved). -/
def lowerStr (s : String) : String :=
  ⟨s.data.map Char.toLower⟩

/-- Python `str.strip()`: remove leading and trailing whitespace. -/
def stripStr (s : String) : String :=
  ⟨((s.data.dropWhile Char.isWhitespace).reverse.dropWhile Char.isWhitespace).reverse⟩

/-- Character class `[A-Za-z0-9_-]` of the reel-id regular expressions. -/
def wordChar (c : Char) : Bool :=
  c.isAlphanum || c == '_' || c == '-'

/-- Value of a digit run (used for Python `re.findall(r'\d+')[0]`). -/
def digitsToNat (cs : List Char) : Nat :=
  cs.foldl (fun a c => 10 * a + (c.toNat - '0'.toNat)) 0

/-- Python `re.findall(r'\d+', t)` followed by `int(numbers[0])`: the value of
the first maximal digit run of `t`, if any. -/
def firstNumber (cs : List Char) : Option Nat :=
  match cs.dropWhile (fun c => !c.isDigit) with
  | [] => none
  | c :: t => some (digitsToNat ((c :: t).takeWhile Char.isDigit))

/-! ## Identifier extraction (`instagram_scraper.py`)

`InstagramReelScraper.extract_reel_id` (line 359) runs
`re.search(r'/(?:p|reel)/([A-Za-z0-9_-]+)', url)` and falls back to the
sentinel `f"unknown_{int(time.time())}"`; the wall-clock value is passed in
as the parameter `ts`.

The static `extract_reel_id_from_url` (line 844) runs
`re.search(r'/reel/([^/\?]+)', url)` and falls back to the empty string.
Both regex searches are leftmost matches: positions are scanned left to
right and the capture group is the maximal run allowed by its class. -/

/-- Attempt the pattern `/(?:p|reel)/([A-Za-z0-9_-]+)` at the head of `cs`.
`'p'` is tried before `'reel'` exactly as the alternation is written; the two
alternatives can never both prefix-match the same position. -/
def matchReelIdAt (cs : List Char) : Option (List Char) :=
  if startsWithChars "/p/".data cs then
    match (cs.drop 3).takeWhile wordChar with
    | [] => none
    | c :: t => some (c :: t)
  else if startsWithChars "/reel/".data cs then
    match (cs.drop 6).takeWhile wordChar with
    | [] => none
    | c :: t => some (c :: t)
  else none

/-- Leftmost search for `/(?:p|reel)/([A-Za-z0-9_-]+)`. -/
def scanReelId : List Char → Option (List Char)
  | [] => none
  | c :: rest =>
    match matchReelIdAt (c :: rest) with
    | some r => some r
    | none => scanReelId rest

/-- `InstagramReelScraper.extract_reel_id` (`instagram_scraper.py` line 359).
`ts` stands for `int(time.time())` at the moment of the call. -/
def extract_reel_id (ts : Nat) (url : String) : String :=
  match scanReelId url.data with
  | some r => ⟨r⟩
  | none => "unknown_" ++ toString ts

/-- Attempt the pattern `/reel/([^/\?]+)` at the head of `cs`. -/
def matchReelSlugAt (cs : List Char) : Option (List Char) :=
  if startsWithChars "/reel/".data cs then
    match (cs.drop 6).takeWhile (fun c => !(c == '/' || c == '?')) with
    | [] => none
    | c :: t => some (c :: t)
  else none

/-- Leftmost search for `/reel/([^/\?]+)`. -/
def scanReelSlug : List Char → Option (List Char)
  | [] => none
  | c :: rest =>
    match matchReelSlugAt (c :: rest) with
    | some r => some r
    | none => scanReelSlug rest

/-- Static `extract_reel_id_from_url` (`instagram_scraper.py` line 844):
returns `""` when the pattern does not occur.  (The `except` branch also
returns `""`.) -/
def extract_reel_id_from_url (url : String) : String :=
  match scanReelSlug url.data with
  | some r => ⟨r⟩
  | none => ""

/-! ## Identity-cache operations (`instagram_scraper.py` lines 1134–1148)

The in-memory cache `self.existing_reel_ids` is modelled as the list
`existing`; it is taken as already hydrated (the lazy
`load_existing_reel_ids()` call performed when `reel_id_cache_loaded` is
false is an external read and leaves the pure logic below unchanged). -/

/-- `InstagramReelScraper.is_duplicate_reel`: `if not reel_id or 'unknown_'
in reel_id: return False`, otherwise membership in the cache. -/
def is_duplicate_reel (existing : List String) (reelId : String) : Bool :=
  if reelId == "" || hasUnknownMark reelId then false
  else decide (reelId ∈ existing)

/-- `InstagramReelScraper.add_reel_to_cache`: `if reel_id and 'unknown_' not
in reel_id: self.existing_reel_ids.add(reel_id)` (set insertion). -/
def add_reel_to_cache (existing : List String) (reelId : String) : List String :=
  if reelId != "" && !hasUnknownMark reelId then
    if reelId ∈ existing then existing else reelId :: existing
  else existing

/-! ## Duplicate filtering (`instagram_scraper.py` lines 1150–1176) -/

/-- Loop body of `InstagramReelScraper.filter_duplicate_reels`.  `i` indexes
the links so that each `extract_reel_id` call can see its own clock value
`tsOf i`; `batchSet` is `processed_in_batch`.  Returns
`(new_links, duplicate_count)`. -/
def fdrGo (tsOf : Nat → Nat) (existing : List String) :
    Nat → List String → List String → List String × Nat
  | _, _, [] => ([], 0)
  | i, batchSet, l :: ls =>
    let reelId := extract_reel_id (tsOf i) l
    if reelId != "" && (reelId ∈ existing || reelId ∈ batchSet) then
      let r := fdrGo tsOf existing (i + 1) batchSet ls
      (r.1, r.2 + 1)
    else
      let batchSet' := if reelId != "" && !hasUnknownMark reelId
        then reelId :: batchSet else batchSet
      let r := fdrGo tsOf existing (i + 1) batchSet' ls
      (l :: r.1, r.2)

/-- `InstagramReelScraper.filter_duplicate_reels` (line 1150): filters a list
of links against the hydrated identifier cache and an in-batch set; returns
`(new_links, duplicate_count)`. -/
def filter_duplicate_reels (tsOf : Nat → Nat) (existing : List String)
    (links : List String) : List String × Nat :=
  if links.isEmpty then ([], 0)
  else fdrGo tsOf existing 0 [] links

/-! ## The Ledger client (`google_sheets_manager.py`)

A row of the sheet has the eight fixed columns written by
`GoogleSheetsManager.batch_add_reels` (line 492).  The manager state carries
the appended rows and the URL cache `self._url_cache` (taken as hydrated:
`_load_url_cache` fills it with column C of the existing rows). -/

structure ReelRow where
  date : String
  username : String
  url : String
  reelId : String
  description : String
  status : String
  ytPostedDate : String
  ytId : String
  deriving Repr, DecidableEq

structure SheetState where
  rows : List ReelRow
  urlCache : List String
  deriving Repr, DecidableEq

/-- `GoogleSheetsManager.url_exists` (line 471): membership of the URL in the
hydrated cache. -/
def url_exists (st : SheetState) (url : String) : Bool :=
  decide (url ∈ st.urlCache)

/-- Set insertion into `self._url_cache`, guarded by `if url:` — an empty
URL is never cached. -/
def urlCacheAdd (cache : List String) (url : String) : List String :=
  if url != "" then (if url ∈ cache then cache else url :: cache) else cache

/-- `GoogleSheetsManager.batch_add_reels` (line 492): appends one row per
entry after the current data and adds each truthy URL to the cache.  Rate
limiting and the quota-retry decorator wrap this call but do not change the
committed data, and the early `if not reels_data: return` is kept. -/
def batch_add_reels (st : SheetState) (reelsData : List ReelRow) : SheetState :=
  if reelsData.isEmpty then st
  else
    { rows := st.rows ++ reelsData
      urlCache := reelsData.foldl (fun c r => urlCacheAdd c r.url) st.urlCache }

/-! ## Intake via the scraper (`instagram_scraper.py` lines 600–636)

`save_batch_to_sheets` re-checks every link against `url_exists`, builds the
row dictionaries (date of the run, username, URL, reel id from
`extract_reel_id_from_url`, empty description, status `pending`, empty
YouTube columns) and hands the non-skipped ones to `batch_add_reels`.
`uname` abstracts `extract_username_from_url`, whose value never feeds any
dedup decision. -/

def save_batch_to_sheets (uname : String → String) (curDate : String)
    (st : SheetState) (links : List String) : SheetState :=
  if links.isEmpty then st
  else
    let reelsData := links.filterMap fun u =>
      if url_exists st u then none
      else some { date := curDate, username := uname u, url := u
                  reelId := extract_reel_id_from_url u, description := ""
                  status := "pending", ytPostedDate := "", ytId := "" }
    if reelsData.isEmpty then st else batch_add_reels st reelsData

/-- Scraper-side state: the sheet plus the in-memory identifier cache.  The
identifier cache is never updated between batches of a run
(`add_reel_to_cache` has no caller in the collection flow). -/
structure ScrState where
  sheet : SheetState
  existingReelIds : List String
  deriving Repr, DecidableEq

/-- One intake batch of the collection run: `filter_duplicate_reels` on the
freshly collected links followed by `save_batch_to_sheets` on the survivors
(the sequential scroll-loop path, `instagram_scraper.py` line 497, passes the
filtered links through unchanged). -/
def intakeBatch (tsOf : Nat → Nat) (uname : String → String) (curDate : String)
    (st : ScrState) (links : List String) : ScrState :=
  let filtered := (filter_duplicate_reels tsOf st.existingReelIds links).1
  { st with sheet := save_batch_to_sheets uname curDate st.sheet filtered }

/-! ## Intake via the processor (`main_processor.py` lines 43–110)

`InstagramProcessor.process_new_reels` filters the URL list through
`url_exists`, builds one row per surviving URL and batch-appends them.  The
helpers `extract_username_from_url`, `extract_reel_id_from_url` (the
processor's own variants) and the optional description extraction are
abstracted as the functions `uname`, `rid` and `desc`; their values never
feed the duplicate check.  The dictionary's `'file_id'` key is ignored by
`batch_add_reels`, whose missing `'yt_posted_date'`/`'yt_id'` keys default
to `''`. -/

def process_new_reels (uname rid desc : String → String) (curDate : String)
    (st : SheetState) (reelUrls : List String) : SheetState :=
  let newUrls := reelUrls.filter fun u => !url_exists st u
  if newUrls.isEmpty then st
  else
    batch_add_reels st (newUrls.map fun u =>
      { date := curDate, username := uname u, url := u, reelId := rid u
        description := desc u, status := "pending", ytPostedDate := "", ytId := "" })

/-! ## Parallel task runner (`parallel_processor.py` lines 129–328)

A worker is a pure function `f : α → Option β`; `none` covers both a `None`
return and an exception (`_safe_worker_wrapper` converts exceptions to
`None`, and `_process_sequential` catches and skips them).  The fate of the
thread pool is a parameter: `ok order` records the nondeterministic
completion order in which `as_completed` yields the futures, while
`constructFail` (the `ThreadPoolExecutor` constructor raises) and
`batchFail` (the `as_completed` loop raises, e.g. on its batch timeout) are
the two ways the outer `try` of `process_in_parallel` can fail. -/

inductive PoolMode (α : Type) where
  | ok (completionOrder : List α)
  | constructFail
  | batchFail

/-- `ParallelProcessor._process_sequential` (line 279): apply the worker in
input order, appending each non-`None` result. -/
def process_sequential {α β : Type} (items : List α) (f : α → Option β) : List β :=
  items.filterMap f

/-- `ParallelProcessor.process_in_parallel` (line 129).  The early returns
(`not items`, concurrency disabled or a single item) lead to the sequential
path; the `except` handler around the pool falls back to
`_process_sequential` on the same input list. -/
def process_in_parallel {α β : Type} (enabled : Bool) (mode : PoolMode α)
    (items : List α) (f : α → Option β) : List β :=
  if items.isEmpty then []
  else if !enabled || items.length == 1 then process_sequential items f
  else
    match mode with
    | .ok order => order.filterMap f
    | .constructFail => process_sequential items f
    | .batchFail => process_sequential items f

/-! ## Quota-retry decorator (`google_sheets_manager.py` lines 48–75) -/

/-- Outcome of one underlying call: a returned value or a raised exception
with its message text. -/
inductive CallRes where
  | ok (v : String)
  | err (msg : String)
  deriving Repr, DecidableEq

/-- The decorator's error classifier: `'quota exceeded' in error_msg or
'rate limit' in error_msg or '429' in error_msg` on the lowercased message. -/
def isQuotaErrorMsg (msg : String) : Bool :=
  containsSub "quota exceeded".data (lowerStr msg).data
    || containsSub "rate limit".data (lowerStr msg).data
    || containsSub "429".data (lowerStr msg).data

/-- Result of the wrapped call: the function's value, a re-raised exception,
or the `return None` taken after the quota retries are exhausted. -/
inductive RetryOutcome where
  | value (v : String)
  | raised (msg : String)
  | exhausted
  deriving Repr, DecidableEq

/-- Loop of `retry_on_quota_error(...)(func)`: `for attempt in
range(max_retries)`.  `behavior k` is what the underlying call does on its
`k`-th invocation and `jitter k` the `random.uniform(1, 3)` sample of that
attempt.  `remaining` counts the loop iterations left
(`remaining + attempt = max_retries` at every call).  The returned list is
the sequence of sleeps performed, each `base_delay * (2 ** attempt) +
jitter`. -/
def retryGo (behavior : Nat → CallRes) (jitter : Nat → ℚ) (maxRetries : Nat)
    (baseDelay : ℚ) : Nat → Nat → RetryOutcome × List ℚ
  | 0, _ => (.exhausted, [])
  | remaining + 1, attempt =>
    match behavior attempt with
    | .ok v => (.value v, [])
    | .err m =>
      if isQuotaErrorMsg m then
        if attempt < maxRetries - 1 then
          let r := retryGo behavior jitter maxRetries baseDelay remaining (attempt + 1)
          (r.1, (baseDelay * 2 ^ attempt + jitter attempt) :: r.2)
        else (.exhausted, [])
      else (.raised m, [])

/-- A full run of a call wrapped by `retry_on_quota_error(max_retries,
base_delay)`. -/
def retry_on_quota_error_run (behavior : Nat → CallRes) (jitter : Nat → ℚ)
    (maxRetries : Nat) (baseDelay : ℚ) : RetryOutcome × List ℚ :=
  retryGo behavior jitter maxRetries baseDelay maxRetries 0

/-! ## Rate limiter (`google_sheets_manager.py` lines 31–46) -/

/-- One `RateLimiter.wait_if_needed` call at wall-clock time `now` with
jitter sample `jit`: drop timestamps older than 60 s, sleep when the
remaining count reaches `max_calls_per_minute - 5` (resetting the window),
then record the call.  Returns `(slept, wait_time, new call list)`;
`wait_time` is `60 - (now - self.calls[0]) + jitter` on the sleeping branch
(`headI` stands for `self.calls[0]`, which in the source would raise
`IndexError` on an empty window — reachable only when the configured ceiling
is at most 5). -/
def wait_if_needed (maxCalls : Nat) (now jit : ℚ) (calls : List ℚ) :
    Bool × ℚ × List ℚ :=
  let recent := calls.filter fun t => decide (now - t < 60)
  if (recent.length : ℤ) ≥ (maxCalls : ℤ) - 5 then
    (true, 60 - (now - recent.headI) + jit, [now])
  else
    (false, 0, recent ++ [now])

/-- Call list after `k` rapid back-to-back `wait_if_needed` calls, all issued
at the same wall-clock instant `t` (the limit of "rapid succession" within
one 60-second window); `jitter i` is the sample of the `i`-th call. -/
def rlCallsAfter (maxCalls : Nat) (t : ℚ) (jitter : Nat → ℚ) : Nat → List ℚ
  | 0 => []
  | k + 1 => (wait_if_needed maxCalls t (jitter k) (rlCallsAfter maxCalls t jitter k)).2.2

/-- Did the `(k+1)`-th of those rapid calls sleep? (`k` is 0-indexed.) -/
def rlSleptAt (maxCalls : Nat) (t : ℚ) (jitter : Nat → ℚ) (k : Nat) : Bool :=
  (wait_if_needed maxCalls t (jitter k) (rlCallsAfter maxCalls t jitter k)).1

/-! ## Detailed date checking (`instagram_scraper.py` lines 1358–1452) -/

/-- Result of `parse_date_text`: a relative age (`datetime.now()` minus the
given number of seconds) or a matched absolute-date literal, whose
`strptime` conversion is not refined further (no claim depends on it). -/
inductive DateGuess where
  | ago (seconds : Nat)
  | absoluteText (matched : String)
  deriving Repr, DecidableEq

/-- Match `\d{4}-\d{2}-\d{2}` at the head of `cs`. -/
def matchIsoDateAt (cs : List Char) : Option (List Char) :=
  match cs with
  | a :: b :: c :: d :: s₁ :: e :: f :: s₂ :: g :: h :: _ =>
    if a.isDigit && b.isDigit && c.isDigit && d.isDigit && s₁ == '-'
        && e.isDigit && f.isDigit && s₂ == '-' && g.isDigit && h.isDigit then
      some [a, b, c, d, s₁, e, f, s₂, g, h]
    else none
  | _ => none

/-- Match `\d{2}<sep>\d{2}<sep>\d{4}` (with `sep` either `/` or `-`) at the
head of `cs`. -/
def matchUsDateAt (sep : Char) (cs : List Char) : Option (List Char) :=
  match cs with
  | a :: b :: s₁ :: c :: d :: s₂ :: e :: f :: g :: h :: _ =>
    if a.isDigit && b.isDigit && s₁ == sep && c.isDigit && d.isDigit
        && s₂ == sep && e.isDigit && f.isDigit && g.isDigit && h.isDigit then
      some [a, b, s₁, c, d, s₂, e, f, g, h]
    else none
  | _ => none

/-- Leftmost search for one positional date matcher. -/
def scanDatePattern (p : List Char → Option (List Char)) :
    List Char → Option (List Char)
  | [] => none
  | c :: rest =>
    match p (c :: rest) with
    | some r => some r
    | none => scanDatePattern p rest

/-- Absolute-dates section of `parse_date_text`: the three patterns are each
searched over the whole text, in the order they are listed. -/
def parseAbsDate (t : String) : Option DateGuess :=
  match scanDatePattern matchIsoDateAt t.data with
  | some r => some (.absoluteText ⟨r⟩)
  | none =>
    match scanDatePattern (matchUsDateAt '/') t.data with
    | some r => some (.absoluteText ⟨r⟩)
    | none =>
      match scanDatePattern (matchUsDateAt '-') t.data with
      | some r => some (.absoluteText ⟨r⟩)
      | none => none

/-- `InstagramReelScraper.parse_date_text` (`instagram_scraper.py` line
1358).  After lowercasing and stripping, a text containing `'ago'` with a
number is matched against the unit chain exactly as written — each branch is
a plain substring test (`'second' in t or 's' in t`, then
`'minute' in t or 'm' in t`, and so on); relative results are collapsed to
the equivalent `timedelta` in seconds (`months` is `days=num * 30`, `years`
is `days=num * 365`).  A failed relative parse falls through to the
absolute-date patterns. -/
def parse_date_text (s : String) : Option DateGuess :=
  if s == "" then none
  else
    let t := stripStr (lowerStr s)
    let tc := t.data
    if containsSub "ago".data tc then
      match firstNumber tc with
      | some num =>
        if containsSub "second".data tc || containsSub "s".data tc then
          some (.ago num)
        else if containsSub "minute".data tc || containsSub "m".data tc then
          some (.ago (60 * num))
        else if containsSub "hour".data tc || containsSub "h".data tc then
          some (.ago (3600 * num))
        else if containsSub "day".data tc || containsSub "d".data tc then
          some (.ago (86400 * num))
        else if containsSub "week".data tc || containsSub "w".data tc then
          some (.ago (604800 * num))
        else if containsSub "month".data tc then
          some (.ago (86400 * 30 * num))
        else if containsSub "year".data tc then
          some (.ago (86400 * 365 * num))
        else parseAbsDate t
      | none => parseAbsDate t
    else parseAbsDate t

/-- `InstagramReelScraper.check_reel_date_detailed` (`instagram_scraper.py`
line 1413).  Dates are days on an integer timeline; `detailedDate` is the
result of `get_detailed_reel_date` (`none` when no timestamp and no parseable
date text was found, and also on an exception).  With a date the reel is
recent iff it is not older than `days_limit`; without one the function logs
"SKIPPED (no date found - conservative approach)" and returns `False`. -/
def check_reel_date_detailed (now daysLimit : ℤ) (detailedDate : Option ℤ) : Bool :=
  match detailedDate with
  | some d => decide (d ≥ now - daysLimit)
  | none => false

/-! ## Media stage single upload (`main_processor.py` lines 314–348) -/

/-- `InstagramProcessor._process_single_upload` acting on the row's status
cell.  `uploadResult` is what `drive_manager.download_and_upload` produced:
`some fid` a returned file id (possibly empty, Python-falsy), `none` a `None`
return or an exception anywhere in the body.  On a truthy file id the row's
status is set to `"processing"` (`update_status`; the companion
`update_file_id` call is a documented no-op) and the function returns
`True`; otherwise nothing is written and it returns `False`. -/
def process_single_upload (uploadResult : Option String) (status : String) :
    Bool × String :=
  match uploadResult with
  | some fid => if fid != "" then (true, "processing") else (false, status)
  | none => (false, status)

/-! ## Helper lemmas -/

/-- The filter loop classifies every link exactly once and keeps the
survivors in input order. -/
lemma fdrGo_partition (tsOf : Nat → Nat) (existing : List String) :
    ∀ (ls : List String) (i : Nat) (bs : List String),
      (fdrGo tsOf existing i bs ls).1.length + (fdrGo tsOf existing i bs ls).2
          = ls.length
        ∧ (fdrGo tsOf existing i bs ls).1.Sublist ls := by
  intro ls
  induction ls with
  | nil => intro i bs; exact ⟨rfl, List.nil_sublist _⟩
  | cons l t ih =>
    intro i bs
    simp only [fdrGo]
    split
    · refine ⟨?_, List.Sublist.cons l (ih (i + 1) bs).2⟩
      have := (ih (i + 1) bs).1
      simp only [List.length_cons]
      omega
    · refine ⟨?_, List.Sublist.cons₂ l (ih (i + 1) _).2⟩
      have := (ih (i + 1) (if (extract_reel_id (tsOf i) l != ""
          && !hasUnknownMark (extract_reel_id (tsOf i) l)) = true
        then extract_reel_id (tsOf i) l :: bs else bs)).1
      simp only [List.length_cons]
      omega

/-! ## C10 — duplicate filtering partitions its input -/

/-- C10: `filter_duplicate_reels` partitions its input: the returned
`new_links` together with `duplicate_count` account for every input link
exactly once, and `new_links` is an order-preserving subsequence of the
input. -/
theorem filter_duplicate_reels_partition (tsOf : Nat → Nat)
    (existing : List String) (links : List String) :
    (filter_duplicate_reels tsOf existing links).1.length
        + (filter_duplicate_reels tsOf existing links).2 = links.length
      ∧ (filter_duplicate_reels tsOf existing links).1.Sublist links := by
  unfold filter_duplicate_reels
  split
  · next h =>
    rw [List.isEmpty_iff.mp h]
    exact ⟨rfl, List.nil_sublist _⟩
  · exact fdrGo_partition tsOf existing links 0 []

/-! ## C9 — sentinel identifiers are never cached nor treated as duplicates -/

/-- C9: an identifier carrying the `unknown_` sentinel marker is never
reported as a duplicate by `is_duplicate_reel` and is never inserted by
`add_reel_to_cache`, so an item whose identifier could not be parsed always
proceeds into the batch. -/
theorem sentinel_id_never_cached (existing : List String) (reelId : String)
    (h : hasUnknownMark reelId = true) :
    is_duplicate_reel existing reelId = false
      ∧ add_reel_to_cache existing reelId = existing := by
  constructor
  · simp [is_duplicate_reel, h]
  · simp [add_reel_to_cache, h]

/-- Witness for C9 at the concrete sentinel identifier `"unknown_1712"`. -/
theorem sentinel_id_never_cached_witness :
    hasUnknownMark "unknown_1712" = true
      ∧ is_duplicate_reel ["abc", "xyz"] "unknown_1712" = false
      ∧ add_reel_to_cache ["abc", "xyz"] "unknown_1712" = ["abc", "xyz"] := by
  refine ⟨by decide, ?_⟩
  have h := sentinel_id_never_cached ["abc", "xyz"] "unknown_1712" (by decide)
  exact ⟨h.1, h.2⟩

/-! ## C1 — identifier uniqueness of intake -/

/-- A link is well-formed when the two identifier extractors used by intake
(`extract_reel_id` for duplicate filtering, `extract_reel_id_from_url` for
the stored row) agree on a nonempty identifier that does not carry the
`unknown_` sentinel marker — true of the standard
`https://www.instagram.com/reel/<id>` URLs the collector gathers. -/
def wellFormedLink (u : String) : Bool :=
  match scanReelId u.data with
  | some r => (String.mk r == extract_reel_id_from_url u)
      && extract_reel_id_from_url u != ""
      && !hasUnknownMark (extract_reel_id_from_url u)
  | none => false

lemma wellFormedLink_spec (u : String) (h : wellFormedLink u = true) :
    (∀ ts, extract_reel_id ts u = extract_reel_id_from_url u)
      ∧ extract_reel_id_from_url u ≠ ""
      ∧ hasUnknownMark (extract_reel_id_from_url u) = false := by
  unfold wellFormedLink at h
  cases hs : scanReelId u.data with
  | none => rw [hs] at h; cases h
  | some r =>
    rw [hs] at h
    simp only [Bool.and_eq_true, beq_iff_eq, bne_iff_ne, ne_eq,
      Bool.not_eq_true'] at h
    obtain ⟨⟨h1, h2⟩, h3⟩ := h
    refine ⟨fun ts => ?_, h2, h3⟩
    unfold extract_reel_id
    rw [hs]
    exact h1

/-- Survivors of the filter loop have identifiers outside the hydrated cache
and outside the in-batch set, pairwise distinct — provided every link is
well-formed. -/
lemma fdrGo_ids_fresh (tsOf : Nat → Nat) (existing : List String) :
    ∀ (ls : List String) (i : Nat) (bs : List String),
      (∀ u ∈ ls, wellFormedLink u = true) →
      (∀ u ∈ (fdrGo tsOf existing i bs ls).1,
          extract_reel_id_from_url u ∉ existing
            ∧ extract_reel_id_from_url u ∉ bs)
        ∧ ((fdrGo tsOf existing i bs ls).1.map extract_reel_id_from_url).Pairwise Ne := by
  intro ls
  induction ls with
  | nil =>
    intro i bs _
    constructor
    · intro u hu
      simp [fdrGo] at hu
    · simp [fdrGo]
  | cons l t ih =>
    intro i bs hwf
    obtain ⟨hid, hne, hsent⟩ := wellFormedLink_spec l (hwf l (List.mem_cons_self l t))
    have hwt : ∀ u ∈ t, wellFormedLink u = true :=
      fun u hu => hwf u (List.mem_cons_of_mem l hu)
    simp only [fdrGo, hid (tsOf i)]
    split
    · next hdup => exact ih (i + 1) bs hwt
    · next hdup =>
      have hmem : extract_reel_id_from_url l ∉ existing
          ∧ extract_reel_id_from_url l ∉ bs := by
        constructor
        · intro hc
          exact hdup (by simp [hne, hc])
        · intro hc
          exact hdup (by simp [hne, hc])
      have hbs' : (if (extract_reel_id_from_url l != ""
            && !hasUnknownMark (extract_reel_id_from_url l)) = true
          then extract_reel_id_from_url l :: bs else bs)
          = extract_reel_id_from_url l :: bs := by
        rw [if_pos]
        simp [hne, hsent]
      rw [hbs']
      obtain ⟨ihmem, ihpw⟩ := ih (i + 1) (extract_reel_id_from_url l :: bs) hwt
      constructor
      · intro u hu
        rcases List.mem_cons.mp hu with rfl | hu
        · exact hmem
        · obtain ⟨h1, h2⟩ := ihmem u hu
          exact ⟨h1, fun hc => h2 (List.mem_cons_of_mem _ hc)⟩
      · simp only [List.map_cons]
        refine List.Pairwise.cons ?_ ihpw
        intro y hy
        obtain ⟨u, hu, rfl⟩ := List.mem_map.mp hy
        have := (ihmem u hu).2
        intro hc
        exact this (hc ▸ List.mem_cons_self _ _)

/-- Row identifiers added by a `filterMap` whose kept rows store
`extract_reel_id_from_url` of their link form a subsequence of the links'
identifiers. -/
lemma filterMap_row_ids_sublist (g : String → Option ReelRow)
    (hg : ∀ u r, g u = some r → r.reelId = extract_reel_id_from_url u) :
    ∀ links : List String,
      ((links.filterMap g).map ReelRow.reelId).Sublist
        (links.map extract_reel_id_from_url) := by
  intro links
  induction links with
  | nil => simp
  | cons u t ih =>
    rw [List.filterMap_cons]
    cases hgu : g u with
    | none => simpa using List.Sublist.cons _ ih
    | some r =>
      simp only [List.map_cons, hg u r hgu]
      exact List.Sublist.cons₂ _ ih

/-- `save_batch_to_sheets` appends rows whose identifiers form a subsequence
of the links' identifiers; existing rows are untouched. -/
lemma save_batch_rows_ids (uname : String → String) (curDate : String)
    (st : SheetState) (links : List String) :
    ∃ app : List String,
      (save_batch_to_sheets uname curDate st links).rows.map ReelRow.reelId
          = st.rows.map ReelRow.reelId ++ app
        ∧ app.Sublist (links.map extract_reel_id_from_url) := by
  simp only [save_batch_to_sheets]
  split
  · exact ⟨[], by simp, List.nil_sublist _⟩
  · split
    · exact ⟨[], by simp, List.nil_sublist _⟩
    · next hne =>
      unfold batch_add_reels
      split
      · exact ⟨[], by simp, List.nil_sublist _⟩
      · refine ⟨((links.filterMap fun u =>
            if url_exists st u = true then none
            else some { date := curDate, username := uname u, url := u
                        reelId := extract_reel_id_from_url u, description := ""
                        status := "pending", ytPostedDate := "", ytId := "" }).map
              ReelRow.reelId),
          by simp, filterMap_row_ids_sublist _ ?_ links⟩
        intro u r hr
        by_cases hu : url_exists st u = true
        · simp [hu] at hr
        · simp only [Bool.not_eq_true] at hu
          simp only [hu, Bool.false_eq_true, if_false] at hr
          obtain rfl := (Option.some.injEq _ _).mp hr
          rfl

/-- C1 (amended): a single intake batch — `filter_duplicate_reels` followed
by `save_batch_to_sheets` — preserves identifier uniqueness of the Ledger
whenever every incoming link is well-formed and the hydrated identifier
cache covers the identifiers already in the Ledger. -/
theorem intake_batch_identifier_unique (tsOf : Nat → Nat)
    (uname : String → String) (curDate : String) (st : ScrState)
    (links : List String)
    (hcov : ∀ r ∈ st.sheet.rows, r.reelId ∈ st.existingReelIds)
    (hdist : (st.sheet.rows.map ReelRow.reelId).Pairwise Ne)
    (hwf : ∀ u ∈ links, wellFormedLink u = true) :
    ((intakeBatch tsOf uname curDate st links).sheet.rows.map
        ReelRow.reelId).Pairwise Ne := by
  unfold intakeBatch
  obtain ⟨app, happ, hsub⟩ := save_batch_rows_ids uname curDate st.sheet
    (filter_duplicate_reels tsOf st.existingReelIds links).1
  simp only [happ]
  have hfresh : ∀ x ∈ app, x ∉ st.existingReelIds ∧
      ∀ y ∈ app, True := by
    intro x hx
    refine ⟨?_, fun _ _ => trivial⟩
    have hx' := hsub.subset hx
    obtain ⟨u, hu, rfl⟩ := List.mem_map.mp hx'
    have hprops : (∀ v ∈ (filter_duplicate_reels tsOf st.existingReelIds links).1,
          extract_reel_id_from_url v ∉ st.existingReelIds
            ∧ extract_reel_id_from_url v ∉ ([] : List String))
        ∧ ((filter_duplicate_reels tsOf st.existingReelIds links).1.map
            extract_reel_id_from_url).Pairwise Ne := by
      unfold filter_duplicate_reels
      split
      · constructor
        · intro v hv; cases hv
        · simp
      · exact fdrGo_ids_fresh tsOf st.existingReelIds links 0 [] hwf
    exact (hprops.1 u hu).1
  have hpwapp : app.Pairwise Ne := by
    have hpw : ((filter_duplicate_reels tsOf st.existingReelIds links).1.map
        extract_reel_id_from_url).Pairwise Ne := by
      unfold filter_duplicate_reels
      split
      · simp
      · exact (fdrGo_ids_fresh tsOf st.existingReelIds links 0 [] hwf).2
    exact hpw.sublist hsub
  refine List.pairwise_append.mpr ⟨hdist, hpwapp, ?_⟩
  intro a ha b hb
  obtain ⟨r, hr, rfl⟩ := List.mem_map.mp ha
  have haid := hcov r hr
  have hbid := (hfresh b hb).1
  intro hc
  exact hbid (hc ▸ haid)

/-- C1 counterexample: the claim "no two rows in the Ledger share the same
identifier after intake" fails on the code in two concrete runs.  First, two
distinct links whose reel id cannot be parsed (`"https://www.instagram.com/reel/"`
and `"https://instagram.com/reel/"`) both pass the sentinel-friendly
duplicate filter and the URL check, and are both stored with the empty
identifier.  Second, because `existing_reel_ids` is never updated during a
run, the same identifier `ABC` arriving under two different URLs in two
separate batches is appended twice. -/
theorem intake_identifier_unique_counterexample :
    ¬ ((intakeBatch (fun i => i) (fun _ => "Unknown") "01-JAN-25"
          ⟨⟨[], []⟩, []⟩
          ["https://www.instagram.com/reel/", "https://instagram.com/reel/"]).sheet.rows.map
            ReelRow.reelId).Pairwise Ne
    ∧ ¬ ((intakeBatch (fun i => i) (fun _ => "Unknown") "01-JAN-25"
          (intakeBatch (fun i => i) (fun _ => "Unknown") "01-JAN-25"
            ⟨⟨[], []⟩, []⟩ ["https://www.instagram.com/reel/ABC"])
          ["https://www.instagram.com/user1/reel/ABC"]).sheet.rows.map
            ReelRow.reelId).Pairwise Ne := by
  constructor
  · intro h
    have : (["", ""] : List String).Pairwise Ne := by
      have heq : (intakeBatch (fun i => i) (fun _ => "Unknown") "01-JAN-25"
          ⟨⟨[], []⟩, []⟩
          ["https://www.instagram.com/reel/", "https://instagram.com/reel/"]).sheet.rows.map
            ReelRow.reelId = ["", ""] := by rfl
      exact heq ▸ h
    simp [List.pairwise_cons] at this
  · intro h
    have : (["ABC", "ABC"] : List String).Pairwise Ne := by
      have heq : (intakeBatch (fun i => i) (fun _ => "Unknown") "01-JAN-25"
          (intakeBatch (fun i => i) (fun _ => "Unknown") "01-JAN-25"
            ⟨⟨[], []⟩, []⟩ ["https://www.instagram.com/reel/ABC"])
          ["https://www.instagram.com/user1/reel/ABC"]).sheet.rows.map
            ReelRow.reelId = ["ABC", "ABC"] := by rfl
      exact heq ▸ h
    simp [List.pairwise_cons] at this

/-- Witness for the amended C1 on a concrete batch of two well-formed
links over an empty Ledger. -/
theorem intake_batch_identifier_unique_witness :
    ((intakeBatch (fun i => i) (fun _ => "@u") "01-JAN-25" ⟨⟨[], []⟩, []⟩
        ["https://www.instagram.com/reel/AAA",
          "https://www.instagram.com/reel/BBB"]).sheet.rows.map
          ReelRow.reelId).Pairwise Ne :=
  intake_batch_identifier_unique (fun i => i) (fun _ => "@u") "01-JAN-25"
    ⟨⟨[], []⟩, []⟩ _ (by intro r hr; cases hr) (by simp) (by decide)

/-! ## C2 — idempotent re-intake -/

lemma urlCacheAdd_mono {x : String} {c : List String} (u : String)
    (h : x ∈ c) : x ∈ urlCacheAdd c u := by
  unfold urlCacheAdd
  split
  · split
    · exact h
    · exact List.mem_cons_of_mem _ h
  · exact h

lemma urlCacheAdd_self {u : String} (c : List String) (h : u ≠ "") :
    u ∈ urlCacheAdd c u := by
  unfold urlCacheAdd
  rw [if_pos (by simpa using h)]
  split
  · assumption
  · exact List.mem_cons_self _ _

lemma foldl_urlCacheAdd_mono {x : String} :
    ∀ (data : List ReelRow) (c : List String), x ∈ c →
      x ∈ data.foldl (fun c r => urlCacheAdd c r.url) c := by
  intro data
  induction data with
  | nil => intro c h; exact h
  | cons r t ih => intro c h; exact ih _ (urlCacheAdd_mono r.url h)

lemma foldl_urlCacheAdd_mem {x : String} (hx : x ≠ "") :
    ∀ (data : List ReelRow) (c : List String),
      (∃ r ∈ data, r.url = x) →
      x ∈ data.foldl (fun c r => urlCacheAdd c r.url) c := by
  intro data
  induction data with
  | nil => rintro c ⟨r, hr, _⟩; cases hr
  | cons r t ih =>
    rintro c ⟨s, hs, rfl⟩
    rcases List.mem_cons.mp hs with rfl | hs
    · exact foldl_urlCacheAdd_mono t _ (urlCacheAdd_self c hx)
    · exact ih _ ⟨s, hs, rfl⟩

/-- After one `process_new_reels` run, every non-empty URL of the input list
is found by `url_exists`. -/
lemma process_new_reels_url_cached (uname rid desc : String → String)
    (curDate : String) (st : SheetState) (urls : List String)
    {u : String} (hu : u ∈ urls) (hne : u ≠ "") :
    url_exists (process_new_reels uname rid desc curDate st urls) u = true := by
  simp only [process_new_reels]
  split
  · next hempty =>
    by_contra hex
    have := List.filter_eq_nil_iff.mp (List.isEmpty_iff.mp hempty) u hu
    simp only [Bool.not_eq_true', Bool.not_eq_false] at this
    exact hex this
  · next hnonempty =>
    by_cases hex : url_exists st u = true
    · simp only [batch_add_reels]
      split
      · exact hex
      · simp only [url_exists, decide_eq_true_eq] at hex ⊢
        exact foldl_urlCacheAdd_mono _ _ hex
    · have humem : u ∈ urls.filter fun v => !url_exists st v :=
        List.mem_filter.mpr ⟨hu, by simp [hex]⟩
      simp only [batch_add_reels]
      split
      · next habs =>
        rw [List.isEmpty_iff, List.map_eq_nil_iff] at habs
        rw [habs] at humem
        exact absurd humem (List.not_mem_nil u)
      · simp only [url_exists, decide_eq_true_eq]
        refine foldl_urlCacheAdd_mem hne _ _ ⟨_, List.mem_map_of_mem _ humem, rfl⟩

/-- C2 (amended): intake through `process_new_reels` is idempotent for every
list of non-empty URLs — the second run finds every URL in the URL cache
that `batch_add_reels` maintains and appends nothing, leaving the Ledger
(and the cache) exactly as after the first run. -/
theorem process_new_reels_idempotent (uname rid desc : String → String)
    (d₁ d₂ : String) (st : SheetState) (urls : List String)
    (hne : ∀ u ∈ urls, u ≠ "") :
    process_new_reels uname rid desc d₂
        (process_new_reels uname rid desc d₁ st urls) urls
      = process_new_reels uname rid desc d₁ st urls := by
  have hall : ∀ u ∈ urls,
      url_exists (process_new_reels uname rid desc d₁ st urls) u = true :=
    fun u hu => process_new_reels_url_cached uname rid desc d₁ st urls hu (hne u hu)
  conv_lhs => rw [process_new_reels]
  rw [if_pos]
  rw [List.isEmpty_iff, List.filter_eq_nil_iff]
  intro u hu
  simp [hall u hu]

/-- C2 counterexample: with the empty string in the URL list the claim "the
second run appends zero new rows" fails — `batch_add_reels` only caches
truthy URLs (`if url:`), so a row with URL `""` is appended again by every
run. -/
theorem process_new_reels_idempotent_counterexample :
    (process_new_reels (fun _ => "@u") (fun _ => "r") (fun _ => "") "d"
        (process_new_reels (fun _ => "@u") (fun _ => "r") (fun _ => "") "d"
          ⟨[], []⟩ [""]) [""]).rows.length = 2
      ∧ (process_new_reels (fun _ => "@u") (fun _ => "r") (fun _ => "") "d"
          ⟨[], []⟩ [""]).rows.length = 1 := by
  constructor <;> rfl

/-- Witness for the amended C2 on a concrete singleton list of one non-empty
URL over an empty Ledger. -/
theorem process_new_reels_idempotent_witness :
    process_new_reels (fun _ => "@u") (fun _ => "AAA") (fun _ => "") "02-JAN-25"
        (process_new_reels (fun _ => "@u") (fun _ => "AAA") (fun _ => "")
          "01-JAN-25" ⟨[], []⟩ ["https://www.instagram.com/reel/AAA"])
        ["https://www.instagram.com/reel/AAA"]
      = process_new_reels (fun _ => "@u") (fun _ => "AAA") (fun _ => "")
          "01-JAN-25" ⟨[], []⟩ ["https://www.instagram.com/reel/AAA"] :=
  process_new_reels_idempotent _ _ _ "01-JAN-25" "02-JAN-25" ⟨[], []⟩ _
    (by decide)

/-! ## C3 — media stage status transitions -/

/-- Python truthiness of the `download_and_upload` result: a non-`None`,
non-empty file id. -/
def truthyFileId : Option String → Bool
  | some fid => fid != ""
  | none => false

/-- C3: for a pending row, `_process_single_upload` writes
`status = "processing"` exactly when the download-and-upload returns a
(truthy) file id; on failure nothing is written and the status stays
`"pending"`; the stage never writes `"failed"`. -/
theorem process_single_upload_status (uploadResult : Option String)
    (status : String) (h : status = "pending") :
    ((process_single_upload uploadResult status).2 = "processing"
        ↔ truthyFileId uploadResult = true)
      ∧ (truthyFileId uploadResult = false →
          (process_single_upload uploadResult status).2 = "pending")
      ∧ (process_single_upload uploadResult status).2 ≠ "failed" := by
  subst h
  cases uploadResult with
  | none => simp [process_single_upload, truthyFileId]
  | some fid =>
    by_cases hf : fid = ""
    · subst hf
      simp [process_single_upload, truthyFileId]
    · simp [process_single_upload, truthyFileId, hf]

/-- Witness for C3: a successful upload of file id `"drive-file-7"` over a
pending row, and a failed upload (`None` return) over a pending row. -/
theorem process_single_upload_status_witness :
    (((process_single_upload (some "drive-file-7") "pending").2 = "processing"
        ↔ truthyFileId (some "drive-file-7") = true)
      ∧ (truthyFileId (some "drive-file-7") = false →
          (process_single_upload (some "drive-file-7") "pending").2 = "pending")
      ∧ (process_single_upload (some "drive-file-7") "pending").2 ≠ "failed")
    ∧ (((process_single_upload none "pending").2 = "processing"
        ↔ truthyFileId (none : Option String) = true)
      ∧ (truthyFileId (none : Option String) = false →
          (process_single_upload none "pending").2 = "pending")
      ∧ (process_single_upload none "pending").2 ≠ "failed") :=
  ⟨process_single_upload_status (some "drive-file-7") "pending" rfl,
    process_single_upload_status none "pending" rfl⟩

/-! ## C4 — sequential fallback of the parallel runner -/

/-- C4: when the worker pool fails — the `ThreadPoolExecutor` constructor
raises, or the batch-processing loop raises — `process_in_parallel` returns
exactly the result of fully sequential execution of the same worker function
on the same input list. -/
theorem process_in_parallel_fallback {α β : Type} (enabled : Bool)
    (mode : PoolMode α) (items : List α) (f : α → Option β)
    (h : mode = .constructFail ∨ mode = .batchFail) :
    process_in_parallel enabled mode items f = process_sequential items f := by
  rcases h with rfl | rfl <;>
    · unfold process_in_parallel
      split
      · next hemp =>
        rw [List.isEmpty_iff.mp hemp]
        rfl
      · split
        · rfl
        · rfl

/-- Witness for C4: a concrete failing pool over three items. -/
theorem process_in_parallel_fallback_witness :
    process_in_parallel true (PoolMode.constructFail) [1, 2, 3]
        (fun n : Nat => if n % 2 == 1 then some (n * 10) else none)
      = process_sequential [1, 2, 3]
          (fun n : Nat => if n % 2 == 1 then some (n * 10) else none) :=
  process_in_parallel_fallback true PoolMode.constructFail [1, 2, 3] _
    (Or.inl rfl)

/-! ## C5 — quota-error retry policy -/

lemma retryGo_quota_then_ok (behavior : Nat → CallRes) (jitter : Nat → ℚ)
    (maxRetries : Nat) (baseDelay : ℚ) :
    ∀ (k r a : Nat) (v : String), a + r = maxRetries → k < r →
      (∀ j, j < k → ∃ m, behavior (a + j) = .err m ∧ isQuotaErrorMsg m = true) →
      behavior (a + k) = .ok v →
      retryGo behavior jitter maxRetries baseDelay r a
        = (.value v, (List.range k).map fun j =>
            baseDelay * 2 ^ (a + j) + jitter (a + j)) := by
  intro k
  induction k with
  | zero =>
    intro r a v hsum hk _ hok
    obtain ⟨r', rfl⟩ := Nat.exists_eq_succ_of_ne_zero (by omega : r ≠ 0)
    simp only [retryGo]
    rw [show a + 0 = a from rfl] at hok
    rw [hok]
    simp
  | succ k ih =>
    intro r a v hsum hk hquota hok
    obtain ⟨r', rfl⟩ := Nat.exists_eq_succ_of_ne_zero (by omega : r ≠ 0)
    obtain ⟨m, hm, hqm⟩ := hquota 0 (Nat.succ_pos k)
    rw [show a + 0 = a from rfl] at hm
    simp only [retryGo, hm, hqm, if_true]
    rw [if_pos (by omega)]
    have hrec := ih r' (a + 1) v (by omega) (by omega)
      (fun j hj => by
        obtain ⟨m', hm', hq'⟩ := hquota (j + 1) (by omega)
        exact ⟨m', by rw [show a + 1 + j = a + (j + 1) by omega]; exact hm', hq'⟩)
      (by rw [show a + 1 + k = a + (k + 1) by omega]; exact hok)
    rw [hrec]
    simp only [List.range_succ_eq_map, List.map_cons, List.map_map]
    refine Prod.ext rfl ?_
    simp only [Nat.add_zero]
    refine congrArg (List.cons _) ?_
    refine List.map_congr_left ?_
    intro j _
    simp only [Function.comp_apply, Nat.succ_eq_add_one]
    rw [show a + (j + 1) = a + 1 + j by omega]

lemma retryGo_quota_exhaust (behavior : Nat → CallRes) (jitter : Nat → ℚ)
    (maxRetries : Nat) (baseDelay : ℚ) :
    ∀ (r a : Nat), a + r = maxRetries → 0 < r →
      (∀ j, j < r → ∃ m, behavior (a + j) = .err m ∧ isQuotaErrorMsg m = true) →
      retryGo behavior jitter maxRetries baseDelay r a
        = (.exhausted, (List.range (r - 1)).map fun j =>
            baseDelay * 2 ^ (a + j) + jitter (a + j)) := by
  intro r
  induction r with
  | zero => intro a _ h; exact absurd h (by omega)
  | succ r ih =>
    intro a hsum _ hquota
    obtain ⟨m, hm, hqm⟩ := hquota 0 (Nat.succ_pos r)
    rw [show a + 0 = a from rfl] at hm
    simp only [retryGo, hm, hqm, if_true]
    rcases Nat.eq_zero_or_pos r with rfl | hr
    · rw [if_neg (by omega)]
      simp
    · rw [if_pos (by omega)]
      have hrec := ih (a + 1) (by omega) hr
        (fun j hj => by
          obtain ⟨m', hm', hq'⟩ := hquota (j + 1) (by omega)
          exact ⟨m', by rw [show a + 1 + j = a + (j + 1) by omega]; exact hm', hq'⟩)
      rw [hrec]
      refine Prod.ext rfl ?_
      obtain ⟨r', rfl⟩ := Nat.exists_eq_succ_of_ne_zero (by omega : r ≠ 0)
      simp only [Nat.succ_sub_one, List.range_succ_eq_map, List.map_cons,
        List.map_map]
      simp only [Nat.add_zero]
      refine congrArg (List.cons _) ?_
      refine List.map_congr_left ?_
      intro j _
      simp only [Function.comp_apply, Nat.succ_eq_add_one]
      rw [show a + (j + 1) = a + 1 + j by omega]

/-- C5: behaviour of a call wrapped by `retry_on_quota_error`.  (1) An error
whose message is not a quota/rate-limit/429 signature is re-raised
immediately on the first attempt, with no sleep and no retry.  (2) When the
first `k` attempts raise quota errors and attempt `k` then succeeds, the
wrapper returns the value after exactly the backoff sleeps
`base_delay * 2 ^ attempt + jitter` for attempts `0 … k-1`.  (3) When every
attempt raises a quota error the wrapper sleeps through all
`max_retries - 1` backoffs and gives up (returning `None`). -/
theorem retry_on_quota_error_policy (behavior : Nat → CallRes)
    (jitter : Nat → ℚ) (maxRetries : Nat) (baseDelay : ℚ) :
    (∀ m, 0 < maxRetries → behavior 0 = .err m → isQuotaErrorMsg m = false →
        retry_on_quota_error_run behavior jitter maxRetries baseDelay
          = (.raised m, []))
      ∧ (∀ k v, k < maxRetries →
          (∀ j, j < k → ∃ m, behavior j = .err m ∧ isQuotaErrorMsg m = true) →
          behavior k = .ok v →
          retry_on_quota_error_run behavior jitter maxRetries baseDelay
            = (.value v, (List.range k).map fun j =>
                baseDelay * 2 ^ j + jitter j))
      ∧ ((∀ j, j < maxRetries →
            ∃ m, behavior j = .err m ∧ isQuotaErrorMsg m = true) →
          0 < maxRetries →
          retry_on_quota_error_run behavior jitter maxRetries baseDelay
            = (.exhausted, (List.range (maxRetries - 1)).map fun j =>
                baseDelay * 2 ^ j + jitter j)) := by
  refine ⟨?_, ?_, ?_⟩
  · intro m hpos h0 hq
    obtain ⟨r', hr⟩ := Nat.exists_eq_succ_of_ne_zero hpos.ne'
    unfold retry_on_quota_error_run
    conv_lhs => rw [hr]
    simp only [retryGo, h0, hq]
    simp
  · intro k v hk hquota hok
    have := retryGo_quota_then_ok behavior jitter maxRetries baseDelay k
      maxRetries 0 v (by omega) hk
      (fun j hj => by simpa using hquota j hj) (by simpa using hok)
    simpa using this
  · intro hquota hpos
    have := retryGo_quota_exhaust behavior jitter maxRetries baseDelay
      maxRetries 0 (by omega) hpos (fun j hj => by simpa using hquota j hj)
    simpa using this

/-- Witness for C5: with three attempts, base delay 2 and constant jitter 2,
a non-quota error (`"Permission denied"`) propagates at once with no sleeps,
and a first-attempt quota error (`"Quota exceeded for writes"`) followed by
success returns the value after the single backoff sleep
`2 * 2 ^ 0 + 2`. -/
theorem retry_on_quota_error_policy_witness :
    retry_on_quota_error_run (fun _ => CallRes.err "Permission denied")
        (fun _ => 2) 3 2 = (.raised "Permission denied", [])
      ∧ retry_on_quota_error_run
          (fun n => if n == 0 then CallRes.err "Quota exceeded for writes"
            else CallRes.ok "done") (fun _ => 2) 3 2
        = (.value "done", (List.range 1).map fun j => (2 : ℚ) * 2 ^ j + 2) := by
  constructor
  · exact (retry_on_quota_error_policy (fun _ => CallRes.err "Permission denied")
      (fun _ => 2) 3 2).1 "Permission denied" (by omega) rfl (by decide)
  · exact (retry_on_quota_error_policy
      (fun n => if n == 0 then CallRes.err "Quota exceeded for writes"
        else CallRes.ok "done") (fun _ => 2) 3 2).2.1 1 "done" (by omega)
      (fun j hj => ⟨"Quota exceeded for writes",
        by have : j = 0 := by omega
           subst this
           rfl,
        by decide⟩)
      rfl

/-! ## C6 — the rate limiter sleeps under rapid calls -/

lemma filter_keep_replicate {α : Type} (p : α → Bool) (a : α)
    (hp : p a = true) : ∀ n, (List.replicate n a).filter p = List.replicate n a := by
  intro n
  induction n with
  | zero => rfl
  | succ n ih => simp [List.replicate_succ, List.filter_cons, hp, ih]

lemma rlCallsAfter_no_sleep (maxCalls : Nat) (t : ℚ) (jitter : Nat → ℚ) :
    ∀ k, k + 4 < maxCalls →
      rlCallsAfter maxCalls t jitter k = List.replicate k t := by
  intro k
  induction k with
  | zero => intro _; rfl
  | succ k ih =>
    intro hk
    have hkk := ih (by omega)
    simp only [rlCallsAfter, hkk, wait_if_needed]
    rw [filter_keep_replicate _ _ (by simp) k]
    rw [if_neg (by rw [List.length_replicate]; omega)]
    rw [List.replicate_succ']

/-- C6: with a ceiling of `N ≥ 6` calls per 60 seconds, issuing calls in
rapid succession (all at the same instant, hence within one 60-second
window) induces at least one sleep strictly before the `(N+1)`-th call
proceeds — `wait_if_needed` sees `max_calls_per_minute - 5` recent
timestamps and sleeps.  (For a ceiling of 5 or less the source would raise
`IndexError` on `self.calls[0]`; the default ceiling is 50.) -/
theorem rate_limiter_sleeps_before_ceiling (N : Nat) (hN : 6 ≤ N) (t : ℚ)
    (jitter : Nat → ℚ) :
    ∃ k, k < N ∧ rlSleptAt N t jitter k = true := by
  refine ⟨N - 5, by omega, ?_⟩
  unfold rlSleptAt
  rw [rlCallsAfter_no_sleep N t jitter (N - 5) (by omega)]
  simp only [wait_if_needed]
  rw [filter_keep_replicate _ _ (by simp) (N - 5)]
  rw [if_pos (show ((List.replicate (N - 5) t).length : ℤ) ≥ (N : ℤ) - 5 by
    rw [List.length_replicate]; omega)]

/-- Witness for C6 at the default ceiling of 50 calls per minute. -/
theorem rate_limiter_sleeps_before_ceiling_witness :
    ∃ k, k < 50 ∧ rlSleptAt 50 0 (fun _ => 2) k = true :=
  rate_limiter_sleeps_before_ceiling 50 (by omega) 0 (fun _ => 2)

/-! ## C7 — items of undeterminable age are excluded, not included -/

/-- C7 counterexample: the claim says an item whose age cannot be determined
is included by default (when strict filtering is not configured).  The cited
`check_reel_date_detailed` has no strict-filtering toggle at all and returns
`False` — the item is excluded — whenever `get_detailed_reel_date` found no
date.  Concrete run: `now = 100`, `days_limit = 30`, no date found. -/
theorem check_reel_date_undetermined_counterexample :
    check_reel_date_detailed 100 30 none ≠ true := by
  intro h
  simp [check_reel_date_detailed] at h

/-- C7 (amended): an item whose age cannot be determined is always excluded
by the detailed date check, regardless of configuration. -/
theorem check_reel_date_undetermined_excluded (now daysLimit : ℤ) :
    check_reel_date_detailed now daysLimit none = false := rfl

/-! ## C8 — relative-age parsing (code bug) -/

/-- C8 (code bug evidence): the claim — and the obvious intent of the unit
chain in `parse_date_text` — is that `"N days ago"`, `"N weeks ago"` and
`"N months ago"` parse to ages of `N` days, `N*7` days and `N*30` days.  The
code instead hits the single-letter shorthand checks first: `'s' in "3 days
ago"` is true, so the seconds branch shadows the day branch (3 seconds, not
3 days); likewise `"2 weeks ago"` parses as 2 seconds and `"1 month ago"`
parses as 1 minute (`'m' in "1 month ago"`), leaving the dedicated
`day`/`week`/`month` branches unreachable for these plural shapes. -/
theorem parse_date_text_plural_units_shadowed :
    parse_date_text "3 days ago" = some (DateGuess.ago 3)
      ∧ parse_date_text "2 weeks ago" = some (DateGuess.ago 2)
      ∧ parse_date_text "1 month ago" = some (DateGuess.ago 60)
      ∧ parse_date_text "1 day ago" = some (DateGuess.ago 86400) := by
  refine ⟨rfl, rfl, rfl, rfl⟩

end I2yt
